import Mathlib

/-!
Verification of the content-acquisition pipeline of `summarize.py`
(gistify-cli).  The embedding is shallow: `time.time()` values are modelled
as integers (seconds since epoch), Python strings as lists of characters
(`PyStr := List Char`), and the fallible / exiting functions as total Lean
functions returning explicit traces, `Option` or `Except` values.
-/

namespace Gistify

/-- A Python string, modelled as its list of characters. -/
abbrev PyStr := List Char

/- ------------------------------------------------------------------ -/
/- Rate limiting (summarize.py lines 30-89)                            -/
/- ------------------------------------------------------------------ -/

/-- `MIN_INTERVAL_SECONDS = 5` (line 32). -/
def MIN_INTERVAL_SECONDS : Int := 5

/-- `MAX_REQUESTS_PER_HOUR = 10` (line 33). -/
def MAX_REQUESTS_PER_HOUR : Nat := 10

/-- The rolling window `window = 3600` bound locally in both
`check_rate_limit` (line 43) and `record_request` (line 78). -/
def window : Int := 3600

/-- The pruning list comprehension
`[ts for ts in timestamps if now - ts < window]`, identical at line 53
(`check_rate_limit`) and line 87 (`record_request`). -/
def pruneWindow (now : Int) (timestamps : List Int) : List Int :=
  timestamps.filter (fun ts => decide (now - ts < window))

/-- Observable actions of `check_rate_limit`, in program order: the spacing
sleep `time.sleep(wait)` (line 61) and the fatal quota `sys.exit(1)`
(line 72). -/
inductive RateAction where
  | sleep (wait : Int)
  | exitFatal
deriving DecidableEq, Repr

/-- `check_rate_limit()` (lines 40-72) applied to the parsed history: prune
to the trailing window, then the minimum-interval check (which sleeps for
the remaining spacing), then the per-hour quota check (which exits the
process with status 1).  The result is the ordered trace of observable
actions; the source emits the sleep, when due, before the fatal exit. -/
def check_rate_limit (now : Int) (timestamps : List Int) : List RateAction :=
  let pruned := pruneWindow now timestamps
  let spacing : List RateAction :=
    match pruned.max? with
    | none => []
    | some m =>
      let elapsed := now - m
      if elapsed < MIN_INTERVAL_SECONDS then
        [RateAction.sleep (MIN_INTERVAL_SECONDS - elapsed)]
      else []
  let quota : List RateAction :=
    if MAX_REQUESTS_PER_HOUR ≤ pruned.length then [RateAction.exitFatal] else []
  spacing ++ quota

/-- Reading `RATE_LIMIT_FILE` (lines 45-50 and 80-85): `disk = none` models a
missing or unparsable file, which is treated as the empty history. -/
def readHistory (disk : Option (List Int)) : List Int := disk.getD []

/-- `record_request()` (lines 75-89) applied to the parsed history: prune to
the window, then append `now`. -/
def record_request (now : Int) (timestamps : List Int) : List Int :=
  pruneWindow now timestamps ++ [now]

/-- File operations performed on the rate-limit log. -/
inductive FileOp where
  | read
  | write (contents : List Int)
deriving DecidableEq, Repr

/-- `check_rate_limit` at the file level: it only reads the log
(`RATE_LIMIT_FILE.read_text`, line 48); the single `write_text` of the
module is in `record_request` (line 89). -/
def check_rate_limit_ops (now : Int) (disk : Option (List Int)) :
    List RateAction × List FileOp :=
  (check_rate_limit now (readHistory disk), [FileOp.read])

/-- `record_request` at the file level: read the log, then write the pruned
history with `now` appended (lines 80-89). -/
def record_request_ops (now : Int) (disk : Option (List Int)) :
    List Int × List FileOp :=
  let updated := record_request now (readHistory disk)
  (updated, [FileOp.read, FileOp.write updated])

/-- Effect of a sequence of file operations on the on-disk log state. -/
def applyFileOps (disk : Option (List Int)) (ops : List FileOp) :
    Option (List Int) :=
  ops.foldl (fun d op =>
    match op with
    | FileOp.read => d
    | FileOp.write l => some l) disk

/- ------------------------------------------------------------------ -/
/- Proxy rotation (lines 96-125)                                       -/
/- ------------------------------------------------------------------ -/

/-- The parsed proxy configuration `~/.scholar-proxies.json`, with the
defaults of `config.get("enabled", False)` and `config.get("proxies", [])`
already applied to its fields. -/
structure ProxyConfig where
  enabled : Bool
  proxies : List PyStr
deriving DecidableEq, Repr

/-- `_load_proxy_config()` (lines 99-105): `src = none` models a missing,
unreadable or malformed configuration file, for which the caught exception
branch returns `{"enabled": False, "proxies": []}`. -/
def _load_proxy_config (src : Option ProxyConfig) : ProxyConfig :=
  src.getD { enabled := false, proxies := [] }

/-- `_get_proxy_url()` (lines 108-117).  `force` is the per-process override
`_PROXY_FORCE` (line 96); `pick` models the randomness of
`random.choice` — the pool is indexed by `pick` reduced modulo its size. -/
def _get_proxy_url (force : Option Bool) (src : Option ProxyConfig)
    (pick : Nat) : Option PyStr :=
  let config := _load_proxy_config src
  let enabled := force.getD config.enabled
  if enabled = false then none
  else if config.proxies.isEmpty then none
  else config.proxies.get? (pick % config.proxies.length)

/- ------------------------------------------------------------------ -/
/- URL rewriting and extraction routing (lines 191-251)                -/
/- ------------------------------------------------------------------ -/

/-- Drop a literal anchored at the start of the string, or fail. -/
def dropLit (lit s : PyStr) : Option PyStr :=
  if lit.isPrefixOf s then some (s.drop lit.length) else none

/-- The tail `(.+?)(?:\?.*)?$` of the two regexes in `_rewrite_to_pdf_url`
(Python `re.match`, no DOTALL/MULTILINE): `.` never matches a newline, and
`$` matches at the end of the string or just before one trailing newline.
So `rest` matches iff, after removing at most one trailing newline, a
nonempty newline-free body remains; the lazily captured group 1 is then the
shortest nonempty prefix of the body whose complement is empty or begins
with a question mark — i.e. the first character of the body followed by the
subsequent characters up to (excluding) the next question mark. -/
def matchTail (rest : PyStr) : Option PyStr :=
  let body := if rest.getLast? = some '\n' then rest.dropLast else rest
  if body.isEmpty then none
  else if body.contains '\n' then none
  else some (body.take 1 ++ (body.drop 1).takeWhile (fun c => c != '?'))

/-- Group 1 of `re.match` against `https?://arxiv\.org/<path>/(.+?)(?:\?.*)?$`
(lines 194 and 197), where `path` is `abs` or `html`; the scheme alternation
`https?` accepts exactly the two literal scheme variants. -/
def arxivMatch (path : PyStr) (url : PyStr) : Option PyStr :=
  match dropLit ("https://arxiv.org/".data ++ path ++ "/".data) url with
  | some rest => matchTail rest
  | none =>
    match dropLit ("http://arxiv.org/".data ++ path ++ "/".data) url with
    | some rest => matchTail rest
    | none => none

/-- `_rewrite_to_pdf_url` (lines 191-200): the `abs` pattern is tried first,
then the `html` pattern; a match is rewritten to
`https://arxiv.org/pdf/<group 1>`. -/
def _rewrite_to_pdf_url (url : PyStr) : Option PyStr :=
  match arxivMatch "abs".data url with
  | some g => some ("https://arxiv.org/pdf/".data ++ g)
  | none =>
    match arxivMatch "html".data url with
    | some g => some ("https://arxiv.org/pdf/".data ++ g)
    | none => none

/-- The two extraction strategies of `_extract_text_from_url`: the direct
PDF download `_download_pdf_text` (line 231) and the Playwright browser
session (lines 233-251). -/
inductive ExtractStrategy where
  | pdfDownload (url : PyStr)
  | browser (url : PyStr)
deriving DecidableEq, Repr

/-- The strategy decision at the top of `_extract_text_from_url`
(lines 229-231): a URL with a PDF rewrite goes to `_download_pdf_text`
with the rewritten URL; any other URL stays unchanged and goes to the
browser session. -/
def extractStrategyFor (url : PyStr) : ExtractStrategy :=
  match _rewrite_to_pdf_url url with
  | some pdfUrl => ExtractStrategy.pdfDownload pdfUrl
  | none => ExtractStrategy.browser url

/- ------------------------------------------------------------------ -/
/- Input classification (lines 355-359)                                -/
/- ------------------------------------------------------------------ -/

/-- `input_str.startswith(("http://", "https://"))` (line 357). -/
def hasUrlScheme (s : PyStr) : Bool :=
  "http://".data.isPrefixOf s || "https://".data.isPrefixOf s

/-- Result of `_is_local_file`, together with whether the filesystem was
consulted (`Path(...).expanduser().exists()`, line 359). -/
structure LocalCheck where
  result : Bool
  probedFilesystem : Bool
deriving DecidableEq, Repr

/-- `_is_local_file` (lines 355-359).  `fsExists` models
`Path(s).expanduser().exists()`; a scheme-prefixed input returns early
without calling it. -/
def _is_local_file (fsExists : PyStr → Bool) (input_str : PyStr) : LocalCheck :=
  if hasUrlScheme input_str then
    { result := false, probedFilesystem := false }
  else
    { result := fsExists input_str, probedFilesystem := true }

/- ------------------------------------------------------------------ -/
/- Local PDF extraction (lines 254-272)                                -/
/- ------------------------------------------------------------------ -/

/-- Whitespace as stripped by Python `str.strip()` (ASCII range). -/
def isPySpace (c : Char) : Bool :=
  c = ' ' || c = '\t' || c = '\n' || c = '\x0d' || c = '\x0b' || c = '\x0c'

/-- Python `text.strip()`: remove leading and trailing whitespace. -/
def stripChars (s : PyStr) : PyStr :=
  ((s.dropWhile isPySpace).reverse.dropWhile isPySpace).reverse

/-- The local document as observed by `_extract_text_from_pdf`: whether the
resolved path exists, its `stat().st_size`, and the text `pdfminer` would
extract from it. -/
structure LocalDoc where
  onDisk : Bool
  byteSize : Nat
  extracted : PyStr
deriving DecidableEq, Repr

/-- The two fatal exits of `_extract_text_from_pdf`. -/
inductive PdfErr where
  | notFound
  | tooLarge
deriving DecidableEq, Repr

/-- Successful PDF extraction: the low-content warning flag and the
returned (stripped) text. -/
structure PdfText where
  warned : Bool
  text : PyStr
deriving DecidableEq, Repr

/-- `_extract_text_from_pdf` (lines 254-272): a missing path exits with the
not-found error (line 261) before anything else; a file larger than
`50 * 1024 * 1024` bytes exits with the too-large error (line 264) before
the content is read; otherwise the extracted text is returned stripped,
with a non-fatal warning when it is empty or its stripped length is under
50 characters (lines 269-270). -/
def _extract_text_from_pdf (doc : LocalDoc) : Except PdfErr PdfText :=
  if doc.onDisk = false then Except.error PdfErr.notFound
  else if 50 * 1024 * 1024 < doc.byteSize then Except.error PdfErr.tooLarge
  else
    let text := doc.extracted
    Except.ok
      { warned := text.isEmpty || decide ((stripChars text).length < 50),
        text := stripChars text }

/-- Result of the browser branch of `_extract_text_from_url`: the warning
flag, the returned text and the page title. -/
structure BrowserText where
  warned : Bool
  text : PyStr
  title : Option PyStr
deriving DecidableEq, Repr

/-- Tail of the browser branch of `_extract_text_from_url` (lines 248-251):
given the rendered body text and the page title, warn when the text is
empty or under 50 characters, and return the text unchanged either way. -/
def browserExtractResult (text : PyStr) (title : Option PyStr) : BrowserText :=
  { warned := text.isEmpty || decide (text.length < 50),
    text := text, title := title }

/- ------------------------------------------------------------------ -/
/- Gistify API call and the summarize-then-record step (279-315, 409-410) -/
/- ------------------------------------------------------------------ -/

/-- The API response as observed by `summarize_content`: the HTTP status
code and the JSON `summary` field (`none` models an absent or null field,
which `data.get("summary", "")` reads as the empty string). -/
structure ApiResponse where
  status_code : Nat
  summary : Option PyStr
deriving DecidableEq, Repr

/-- `requests.Response.ok`: true iff the status code is below 400. -/
def respOk (r : ApiResponse) : Bool := decide (r.status_code < 400)

/-- The three fatal exits of `summarize_content`. -/
inductive SummarizeErr where
  | rateLimited
  | httpError (code : Nat)
  | emptySummary
deriving DecidableEq, Repr

/-- `summarize_content` (lines 279-315): HTTP 429 exits as rate-limited
(line 300), any other non-success status exits as an HTTP error (line 304),
an empty or missing `summary` field exits as an empty summary (line 313),
and otherwise the summary is returned. -/
def summarize_content (resp : ApiResponse) : Except SummarizeErr PyStr :=
  if resp.status_code = 429 then Except.error SummarizeErr.rateLimited
  else if respOk resp = false then
    Except.error (SummarizeErr.httpError resp.status_code)
  else
    let summary := resp.summary.getD []
    if summary.isEmpty then Except.error SummarizeErr.emptySummary
    else Except.ok summary

/-- Lines 409-410 of `main`: `summarize_content` followed by
`record_request()` only when it returned instead of exiting.  The result is
the fatal-exit flag paired with the final on-disk history. -/
def pipeline_summarize_step (resp : ApiResponse) (now : Int)
    (disk : Option (List Int)) : Bool × Option (List Int) :=
  match summarize_content resp with
  | Except.error _ => (true, disk)
  | Except.ok _ => (false, applyFileOps disk (record_request_ops now disk).2)

/- ------------------------------------------------------------------ -/
/- Theorems                                                            -/
/- ------------------------------------------------------------------ -/

/-- Claim C2, counterexample: at `now = 3600` an entry with timestamp `0` is
aged exactly 3600 seconds, hence not strictly older than the window, yet
both pruning steps remove it — the claim that such an entry is kept is
false. -/
theorem pruneWindow_boundary_cex :
    ¬ ((3600 : Int) - 0 > 3600) ∧ (0 : Int) ∈ ([0] : List Int) ∧
      pruneWindow 3600 [0] = [] ∧ record_request 3600 [0] = [3600] := by
  decide

/-- Claim C2 (amended): the pruning step shared by `check_rate_limit` and
`record_request` keeps exactly the entries strictly newer than the window
(`now - ts < 3600`) and removes exactly those aged at least 3600 seconds;
`record_request` applies the same pruning and then appends `now`. -/
theorem pruneWindow_mem :
    ∀ (now x : Int) (l : List Int),
      (x ∈ pruneWindow now l ↔ x ∈ l ∧ now - x < window) ∧
      record_request now l = pruneWindow now l ++ [now] := by
  intro now x l
  refine ⟨?_, rfl⟩
  simp [pruneWindow, List.mem_filter]

/-- Claim C1, counterexample: a history of ten in-window timestamps whose
most recent entry is 1 second old.  The quota is exhausted, yet the call
performs the spacing sleep (4 seconds) before the fatal exit, and the
spacing check was evaluated even though the quota check fails — refuting
the claimed quota-first ordering. -/
theorem check_rate_limit_order_cex :
    MAX_REQUESTS_PER_HOUR ≤
      (pruneWindow 10000
        [9999, 9990, 9980, 9970, 9960, 9950, 9940, 9930, 9920, 9910]).length ∧
    check_rate_limit 10000
        [9999, 9990, 9980, 9970, 9960, 9950, 9940, 9930, 9920, 9910] =
      [RateAction.sleep 4, RateAction.exitFatal] := by
  decide

/-- Claim C1 (amended): in `check_rate_limit` the spacing check is evaluated
first and the quota check second; for every history with at least the quota
(10) of timestamps in the trailing window, the call terminates the run with
non-zero status, but any due spacing wait is performed before that fatal
exit — every action preceding the exit in the trace is a spacing sleep. -/
theorem check_rate_limit_quota_fatal :
    ∀ (now : Int) (timestamps : List Int),
      MAX_REQUESTS_PER_HOUR ≤ (pruneWindow now timestamps).length →
      ∃ pre, check_rate_limit now timestamps = pre ++ [RateAction.exitFatal] ∧
        ∀ a ∈ pre, ∃ w, a = RateAction.sleep w := by
  intro now ts h
  simp only [check_rate_limit]
  rw [if_pos h]
  cases hmax : (pruneWindow now ts).max? with
  | none => exact ⟨[], by simp, by simp⟩
  | some m =>
    by_cases hlt : now - m < MIN_INTERVAL_SECONDS
    · refine ⟨[RateAction.sleep (MIN_INTERVAL_SECONDS - (now - m))], ?_, ?_⟩
      · simp [hlt]
      · intro a ha
        simp only [List.mem_singleton] at ha
        exact ⟨_, ha⟩
    · exact ⟨[], by simp [hlt], by simp⟩

/-- Witness for the amended claim C1 at a concrete exhausted history. -/
theorem check_rate_limit_quota_fatal_witness :
    ∃ pre, check_rate_limit 0 [0, 0, 0, 0, 0, 0, 0, 0, 0, 0] =
        pre ++ [RateAction.exitFatal] ∧
      ∀ a ∈ pre, ∃ w, a = RateAction.sleep w :=
  check_rate_limit_quota_fatal 0 [0, 0, 0, 0, 0, 0, 0, 0, 0, 0] (by decide)

/-- Claim C7: whenever fewer than the quota (10) of timestamps fall in the
trailing window, `check_rate_limit` never performs the fatal quota exit,
however closely the timestamps are spaced. -/
theorem check_rate_limit_under_quota_no_exit :
    ∀ (now : Int) (timestamps : List Int),
      (pruneWindow now timestamps).length < MAX_REQUESTS_PER_HOUR →
      RateAction.exitFatal ∉ check_rate_limit now timestamps := by
  intro now ts h
  simp only [check_rate_limit]
  rw [if_neg (Nat.not_le.mpr h)]
  cases hmax : (pruneWindow now ts).max? with
  | none => simp
  | some m =>
    by_cases hlt : now - m < MIN_INTERVAL_SECONDS
    · simp [hlt]
    · simp [hlt]

/-- Witness for claim C7 at a concrete under-quota history. -/
theorem check_rate_limit_under_quota_no_exit_witness :
    RateAction.exitFatal ∉ check_rate_limit 100 [99, 98, 97] :=
  check_rate_limit_under_quota_no_exit 100 [99, 98, 97] (by decide)

/-- Claim C10: `check_rate_limit` never writes the rate-limit log — applying
its file operations leaves every starting on-disk state unchanged — while
`record_request` is the function that writes the pruned history with `now`
appended. -/
theorem check_rate_limit_frame :
    ∀ (now : Int) (disk : Option (List Int)),
      applyFileOps disk (check_rate_limit_ops now disk).2 = disk ∧
      applyFileOps disk (record_request_ops now disk).2 =
        some (record_request now (readHistory disk)) := by
  intro now disk
  exact ⟨rfl, rfl⟩

/-- Claim C3: a URL matched by the arXiv abstract pattern is rewritten to
the corresponding direct PDF URL and routed to the PDF downloader, never to
the browser session; a URL matching no known pattern is left unchanged and
routed to the browser-based extractor. -/
theorem arxiv_abs_routes_to_pdf :
    ∀ (url g : PyStr),
      (arxivMatch "abs".data url = some g →
        extractStrategyFor url =
          ExtractStrategy.pdfDownload ("https://arxiv.org/pdf/".data ++ g)) ∧
      (_rewrite_to_pdf_url url = none →
        extractStrategyFor url = ExtractStrategy.browser url) := by
  intro url g
  constructor
  · intro h
    simp [extractStrategyFor, _rewrite_to_pdf_url, h]
  · intro h
    simp [extractStrategyFor, h]

/-- Witness for claim C3: a concrete abstract URL goes to the PDF
downloader under the rewritten URL; a concrete unmatched URL goes
unchanged to the browser. -/
theorem arxiv_abs_routes_to_pdf_witness :
    extractStrategyFor "https://arxiv.org/abs/1234.5678".data =
      ExtractStrategy.pdfDownload
        ("https://arxiv.org/pdf/".data ++ "1234.5678".data) ∧
    extractStrategyFor "https://example.com/a".data =
      ExtractStrategy.browser "https://example.com/a".data :=
  ⟨(arxiv_abs_routes_to_pdf "https://arxiv.org/abs/1234.5678".data
      "1234.5678".data).1 (by decide),
   (arxiv_abs_routes_to_pdf "https://example.com/a".data []).2 (by decide)⟩

/-- Claim C4: `_is_local_file` classifies an input as a local file iff it
carries no recognized URL scheme and the (expanded) path exists on disk;
a scheme-prefixed input is classified as remote without the filesystem
ever being probed. -/
theorem is_local_file_classification :
    ∀ (fsExists : PyStr → Bool) (s : PyStr),
      ((_is_local_file fsExists s).result = true ↔
        hasUrlScheme s = false ∧ fsExists s = true) ∧
      (hasUrlScheme s = true →
        (_is_local_file fsExists s).probedFilesystem = false) := by
  intro fs s
  by_cases h : hasUrlScheme s
  · refine ⟨?_, fun _ => ?_⟩
    · simp [_is_local_file, h]
    · simp [_is_local_file, h]
  · refine ⟨?_, fun hc => absurd hc h⟩
    simp [_is_local_file, h]

/-- Witness for claim C4: with a filesystem containing everything, a plain
path is classified local, while a scheme-prefixed input leaves the
filesystem unprobed. -/
theorem is_local_file_classification_witness :
    (_is_local_file (fun _ => true) "paper.pdf".data).result = true ∧
    (_is_local_file (fun _ => true)
        "https://example.com".data).probedFilesystem = false :=
  ⟨((is_local_file_classification (fun _ => true) "paper.pdf".data).1).mpr
     (by decide),
   (is_local_file_classification (fun _ => true) "https://example.com".data).2
     (by decide)⟩

/-- Claim C5: `_extract_text_from_pdf` fails with the not-found error
whenever the path does not exist (for every size and content, so before any
extraction attempt), fails with the too-large error whenever the file
exceeds 50 MiB (for every content, so before the content is read), and
otherwise returns the extracted text stripped of leading and trailing
whitespace. -/
theorem extract_pdf_spec :
    ∀ (doc : LocalDoc),
      (doc.onDisk = false →
        _extract_text_from_pdf doc = Except.error PdfErr.notFound) ∧
      (doc.onDisk = true → 50 * 1024 * 1024 < doc.byteSize →
        _extract_text_from_pdf doc = Except.error PdfErr.tooLarge) ∧
      (doc.onDisk = true → doc.byteSize ≤ 50 * 1024 * 1024 →
        ∃ w, _extract_text_from_pdf doc =
          Except.ok { warned := w, text := stripChars doc.extracted }) := by
  intro doc
  refine ⟨fun h => ?_, fun h1 h2 => ?_, fun h1 h2 => ?_⟩
  · simp [_extract_text_from_pdf, h]
  · simp [_extract_text_from_pdf, h1, h2]
  · exact ⟨doc.extracted.isEmpty || decide ((stripChars doc.extracted).length < 50),
      by simp [_extract_text_from_pdf, h1, Nat.not_lt.mpr h2]⟩

/-- Witness for claim C5 at three concrete documents: a missing one, an
oversized one (50 MiB + 1 byte), and a small ordinary one. -/
theorem extract_pdf_spec_witness :
    _extract_text_from_pdf ⟨false, 0, []⟩ = Except.error PdfErr.notFound ∧
    _extract_text_from_pdf ⟨true, 52428801, []⟩ =
      Except.error PdfErr.tooLarge ∧
    ∃ w, _extract_text_from_pdf ⟨true, 100, " hi ".data⟩ =
      Except.ok { warned := w, text := stripChars " hi ".data } :=
  ⟨(extract_pdf_spec ⟨false, 0, []⟩).1 rfl,
   (extract_pdf_spec ⟨true, 52428801, []⟩).2.1 rfl (by decide),
   (extract_pdf_spec ⟨true, 100, " hi ".data⟩).2.2 rfl (by decide)⟩

/-- Claim C6: `_get_proxy_url` returns `none` whenever proxying is disabled
(the per-process override when set, else the configuration flag) or the
configured pool is empty; a missing/unreadable/malformed configuration
source degrades to no proxy without error; otherwise it returns an
endpoint from the configured pool. -/
theorem get_proxy_url_spec :
    ∀ (force : Option Bool) (src : Option ProxyConfig) (pick : Nat),
      (force.getD (_load_proxy_config src).enabled = false ∨
          (_load_proxy_config src).proxies = [] →
        _get_proxy_url force src pick = none) ∧
      (src = none → _get_proxy_url force src pick = none) ∧
      (force.getD (_load_proxy_config src).enabled = true →
          (_load_proxy_config src).proxies ≠ [] →
        ∃ u ∈ (_load_proxy_config src).proxies,
          _get_proxy_url force src pick = some u) := by
  intro force src pick
  refine ⟨fun h => ?_, fun h => ?_, fun h1 h2 => ?_⟩
  · rcases h with h | h
    · simp [_get_proxy_url, h]
    · by_cases he : force.getD (_load_proxy_config src).enabled = false
      · simp [_get_proxy_url, he]
      · simp [_get_proxy_url, he, h]
  · subst h
    cases force with
    | none => rfl
    | some b => cases b <;> rfl
  · have hlen : 0 < (_load_proxy_config src).proxies.length :=
      List.length_pos.mpr h2
    have hidx : pick % (_load_proxy_config src).proxies.length <
        (_load_proxy_config src).proxies.length := Nat.mod_lt _ hlen
    refine ⟨(_load_proxy_config src).proxies.get ⟨_, hidx⟩,
      (_load_proxy_config src).proxies.get_mem _ _, ?_⟩
    simp [_get_proxy_url, h1, List.isEmpty_iff, h2, List.get?_eq_get hidx]

/-- Witness for claim C6: a disabled configuration yields no proxy, a
forced-on override over a missing file still yields no proxy, and an
enabled one-element pool yields that endpoint. -/
theorem get_proxy_url_spec_witness :
    _get_proxy_url none (some ⟨false, ["p1".data]⟩) 0 = none ∧
    _get_proxy_url (some true) none 3 = none ∧
    ∃ u ∈ (_load_proxy_config (some ⟨true, ["p1".data]⟩)).proxies,
      _get_proxy_url none (some ⟨true, ["p1".data]⟩) 5 = some u :=
  ⟨(get_proxy_url_spec none (some ⟨false, ["p1".data]⟩) 0).1 (Or.inl (by decide)),
   (get_proxy_url_spec (some true) none 3).2.1 rfl,
   (get_proxy_url_spec none (some ⟨true, ["p1".data]⟩) 5).2.2 (by decide)
     (by decide)⟩

/-- Claim C8: whenever the summarization service answers 429, any other
non-success status, or a success with an empty or missing summary, the
pipeline step exits fatally and the on-disk rate-limit history is left
unchanged; the history is rewritten (with `now` appended) exactly when
`summarize_content` succeeded. -/
theorem summarize_failure_no_record :
    ∀ (resp : ApiResponse) (now : Int) (disk : Option (List Int)),
      (resp.status_code = 429 ∨ respOk resp = false ∨
          (resp.summary.getD []).isEmpty = true →
        (pipeline_summarize_step resp now disk).1 = true ∧
        (pipeline_summarize_step resp now disk).2 = disk) ∧
      (∀ s, summarize_content resp = Except.ok s →
        pipeline_summarize_step resp now disk =
          (false, some (record_request now (readHistory disk)))) ∧
      ((pipeline_summarize_step resp now disk).2 ≠ disk →
        ∃ s, summarize_content resp = Except.ok s) := by
  intro resp now disk
  refine ⟨fun h => ?_, fun s hs => ?_, fun hne => ?_⟩
  · have herr : ∃ e, summarize_content resp = Except.error e := by
      rcases h with h | h | h
      · exact ⟨SummarizeErr.rateLimited, by simp [summarize_content, h]⟩
      · by_cases h429 : resp.status_code = 429
        · exact ⟨SummarizeErr.rateLimited, by simp [summarize_content, h429]⟩
        · exact ⟨SummarizeErr.httpError resp.status_code,
            by simp [summarize_content, h429, h]⟩
      · by_cases h429 : resp.status_code = 429
        · exact ⟨SummarizeErr.rateLimited, by simp [summarize_content, h429]⟩
        · by_cases hok : respOk resp = false
          · exact ⟨SummarizeErr.httpError resp.status_code,
              by simp [summarize_content, h429, hok]⟩
          · exact ⟨SummarizeErr.emptySummary, by
              simp only [summarize_content, h429, if_false, hok]
              simp [h]⟩
    obtain ⟨e, he⟩ := herr
    constructor <;> simp [pipeline_summarize_step, he]
  · simp [pipeline_summarize_step, hs, record_request_ops, applyFileOps]
  · cases hsc : summarize_content resp with
    | error e =>
      exfalso
      apply hne
      simp [pipeline_summarize_step, hsc]
    | ok s => exact ⟨s, rfl⟩

/-- Witness for claim C8: a 429 response leaves the history untouched and
exits fatally; a successful response records the pruned history with the
new timestamp appended. -/
theorem summarize_failure_no_record_witness :
    ((pipeline_summarize_step ⟨429, none⟩ 100 (some [1])).1 = true ∧
      (pipeline_summarize_step ⟨429, none⟩ 100 (some [1])).2 = some [1]) ∧
    pipeline_summarize_step ⟨200, some "sum".data⟩ 100 (some [1]) =
      (false, some (record_request 100 (readHistory (some [1])))) :=
  ⟨(summarize_failure_no_record ⟨429, none⟩ 100 (some [1])).1 (Or.inl rfl),
   (summarize_failure_no_record ⟨200, some "sum".data⟩ 100 (some [1])).2.1
     "sum".data rfl⟩

/-- Claim C9: an extraction yielding under 50 characters raises the
low-content warning but the text is still returned unchanged — in the
browser branch the raw text and title are returned as-is, and in the PDF
branch the stripped text is returned as an ordinary success, never as an
error. -/
theorem low_content_warns_and_returns :
    ∀ (text : PyStr) (title : Option PyStr) (doc : LocalDoc),
      (text.length < 50 →
        (browserExtractResult text title).warned = true ∧
        (browserExtractResult text title).text = text ∧
        (browserExtractResult text title).title = title) ∧
      (doc.onDisk = true → doc.byteSize ≤ 50 * 1024 * 1024 →
          (stripChars doc.extracted).length < 50 →
        _extract_text_from_pdf doc =
          Except.ok { warned := true, text := stripChars doc.extracted }) := by
  intro text title doc
  refine ⟨fun h => ?_, fun h1 h2 h3 => ?_⟩
  · exact ⟨by simp [browserExtractResult, h], rfl, rfl⟩
  · simp [_extract_text_from_pdf, h1, Nat.not_lt.mpr h2, h3]

/-- Witness for claim C9 on a concrete short page text and a concrete
low-content PDF. -/
theorem low_content_warns_and_returns_witness :
    ((browserExtractResult "short".data none).warned = true ∧
      (browserExtractResult "short".data none).text = "short".data ∧
      (browserExtractResult "short".data none).title = none) ∧
    _extract_text_from_pdf ⟨true, 10, "tiny".data⟩ =
      Except.ok { warned := true, text := stripChars "tiny".data } :=
  ⟨(low_content_warns_and_returns "short".data none
      ⟨true, 10, "tiny".data⟩).1 (by decide),
   (low_content_warns_and_returns "short".data none
      ⟨true, 10, "tiny".data⟩).2 rfl (by decide) (by decide)⟩

end Gistify
